import Mathlib

/-
Verification of `src/transcripcion.py`, a single-function wrapper that
transcribes an audio file with the external Whisper model and writes the
resulting text to disk.

The embedding models:
  * filesystem paths (`PPath`): an absolute-flag plus a list of components,
    with Python `pathlib` semantics for `with_suffix`, `parent` and
    `resolve` (symlink and `..` normalisation are not modelled: `resolve`
    on a relative path prepends the current working directory, and is the
    identity on an absolute path);
  * the filesystem (`FS`): an association list from paths to file contents
    plus the set (list) of existing directories;
  * the external Whisper capability (`Whisper`): an oracle with a
    model-loading function (returning an opaque handle, modelled as `Nat`)
    and a transcription function returning a result structure whose only
    observed field is the optional `text` entry of the Python result dict;
  * observable external calls (`CallLog`): which models were loaded and
    which transcription calls were made, so that claims about "the model is
    not invoked" or "the model receives language hint X" are statable;
  * the function `transcribir_mp3_a_txt` itself, translated line by line
    from `src/transcripcion.py` (lines 45-70), and the `--lenguaje`
    normalisation of the `__main__` block (line 98).
-/

set_option autoImplicit false

namespace Transcripcion

/-- Filesystem path: `absolute` is whether the path starts at the root, and
`comps` are the path components in order.  The last component is the file
name (Python `Path.name`); an empty `comps` is Python's `.` or `/`. -/
structure PPath where
  absolute : Bool
  comps : List String
deriving DecidableEq

/-- Parent path, as Python `Path.parent`: drop the last component
(the parent of `.` is `.` itself, matching `pathlib`). -/
def parentP (p : PPath) : PPath :=
  ⟨p.absolute, p.comps.dropLast⟩

/-- String rendering of a path, as Python `str(Path(...))` up to the
degenerate empty path. -/
def pathStr (p : PPath) : String :=
  (if p.absolute then "/" else "") ++ String.intercalate "/" p.comps

/-- Python `PurePath.with_suffix` on the final component: the suffix is the
part of the name from its last dot, provided that dot is neither the first
nor the last character of the name (CPython's `0 < i < len(name) - 1`);
the suffix, when present, is dropped and the new suffix is appended. -/
def withSuffixName (name : String) (suf : String) : String :=
  let cs := name.toList
  let n := cs.length
  match cs.reverse.findIdx? (fun c => c = '.') with
  | none => name ++ suf
  | some j =>
      if 1 ≤ j ∧ j + 2 ≤ n then String.mk (cs.take (n - 1 - j)) ++ suf
      else name ++ suf

/-- Python `Path.with_suffix` applied to a whole path: only the final
component changes.  (Python raises on an empty name; that case is
unreachable here because the source file is checked to exist first.) -/
def withSuffix (p : PPath) (suf : String) : PPath :=
  match p.comps.getLast? with
  | none => p
  | some name => ⟨p.absolute, p.comps.dropLast ++ [withSuffixName name suf]⟩

/-- Python `Path.resolve`: make the path absolute against the current
working directory (symlink/`..` normalisation not modelled). -/
def resolvePath (cwd : List String) (p : PPath) : PPath :=
  if p.absolute then p else ⟨true, cwd ++ p.comps⟩

/-- Filesystem state: regular files with their text contents, and the set of
existing directories. -/
structure FS where
  files : List (PPath × String)
  dirs : List PPath
deriving DecidableEq

/-- Look up the contents of a regular file. -/
def getFile : List (PPath × String) → PPath → Option String
  | [], _ => none
  | (q, t) :: rest, p => if q = p then some t else getFile rest p

/-- Python `Path.is_file()`: the path refers to an existing regular file. -/
def isFile (fs : FS) (p : PPath) : Bool :=
  (getFile fs.files p).isSome

/-- Create or overwrite the entry for `p` in a file map. -/
def setFile : List (PPath × String) → PPath → String → List (PPath × String)
  | [], p, s => [(p, s)]
  | (q, t) :: rest, p, s =>
      if q = p then (p, s) :: rest else (q, t) :: setFile rest p s

/-- Every ancestor component list of a component list, the full list
included (`ancestorComps [a,b] = [[], [a], [a,b]]`). -/
def ancestorComps : List String → List (List String)
  | [] => [[]]
  | a :: t => [] :: (ancestorComps t).map (fun l => a :: l)

/-- Every ancestor of a directory path, the path itself included. -/
def ancestorsOf (p : PPath) : List PPath :=
  (ancestorComps p.comps).map (fun c => ⟨p.absolute, c⟩)

/-- Python `dir.mkdir(parents=True, exist_ok=True)`: the directory and all
its missing ancestors now exist; existing entries are untouched. -/
def mkdirParents (fs : FS) (d : PPath) : FS :=
  ⟨fs.files, ancestorsOf d ++ fs.dirs⟩

/-- Python `Path.write_text`: succeeds (replacing any previous contents)
when the parent directory exists, fails otherwise. -/
def writeText (fs : FS) (p : PPath) (s : String) : Option FS :=
  if parentP p ∈ fs.dirs then some ⟨setFile fs.files p s, fs.dirs⟩ else none

/-- ASCII whitespace stripped by Python `str.strip()` (Python additionally
strips Unicode space characters; only ASCII arises here). -/
def pyIsSpace (c : Char) : Bool :=
  c = ' ' || c = '\t' || c = '\n' || c = '\r' || c = '\x0b' || c = '\x0c'

/-- Python `str.strip()`: drop leading and trailing whitespace. -/
def pyStrip (s : String) : String :=
  String.mk (((s.toList.dropWhile pyIsSpace).reverse.dropWhile pyIsSpace).reverse)

/-- Errors a Python invocation can surface: the two errors raised locally by
`transcribir_mp3_a_txt`, and opaque failures from the external model or the
environment. -/
inductive PyErr where
  | fileNotFoundError (msg : String)
  | valueError (msg : String)
  | otherError (msg : String)
deriving DecidableEq

/-- Result structure returned by `model.transcribe`: a dict of which the
orchestrator reads only the `"text"` entry, which may be absent. -/
structure TResult where
  text : Option String
deriving DecidableEq

/-- Oracle for the external Whisper capability: `load_model` keyed by the
selector string returns a handle (or fails); `transcribe` on a handle takes
the audio path, the optional language hint and the forwarded extra options,
and returns a result dict (or fails). -/
structure Whisper where
  load_model : String → Except PyErr Nat
  transcribe : Nat → PPath → Option String → List (String × String) → Except PyErr TResult

/-- Observable calls into the external capability: model selectors loaded,
and transcription calls made (handle, audio path, language, options). -/
structure CallLog where
  loads : List String
  calls : List (Nat × PPath × Option String × List (String × String))
deriving DecidableEq

instance exceptDecEq {ε α : Type} [DecidableEq ε] [DecidableEq α] : DecidableEq (Except ε α) :=
  fun a b =>
  match a, b with
  | .error e, .error f =>
      if h : e = f then .isTrue (congrArg Except.error h)
      else .isFalse (fun hc => h (Except.error.inj hc))
  | .error _, .ok _ => .isFalse (fun hc => Except.noConfusion hc)
  | .ok _, .error _ => .isFalse (fun hc => Except.noConfusion hc)
  | .ok x, .ok y =>
      if h : x = y then .isTrue (congrArg Except.ok h)
      else .isFalse (fun hc => h (Except.ok.inj hc))

/-- Outcome of one invocation: final filesystem, external calls made, and
either the returned path or the raised error. -/
structure TOut where
  fs : FS
  log : CallLog
  result : Except PyErr PPath
deriving DecidableEq

/-- Destination-path computation of lines 49-52: if `ruta_txt` is omitted it
is the source path with its suffix replaced by `.txt`. -/
def destOf (ruta_mp3 : PPath) (ruta_txt : Option PPath) : PPath :=
  match ruta_txt with
  | none => withSuffix ruta_mp3 ".txt"
  | some p => p

/-- Embedding of `transcribir_mp3_a_txt` (src/transcripcion.py lines
45-70).  Line by line: check `ruta_mp3.is_file()` else raise
`FileNotFoundError`; compute `ruta_txt` (default: suffix replaced by
`.txt`); `ruta_txt.parent.mkdir(parents=True, exist_ok=True)`;
`whisper.load_model(modelo)`; `modelo_whisper.transcribe(str(ruta_mp3),
language=lenguaje, **opciones)`; `texto = resultado.get("text", "").strip()`;
raise `ValueError` if `texto` is empty; `ruta_txt.write_text(texto,
encoding="utf-8")`; return `ruta_txt.resolve()`. -/
def transcribir_mp3_a_txt (W : Whisper) (cwd : List String) (fs : FS)
    (ruta_mp3 : PPath) (ruta_txt : Option PPath) (modelo : String)
    (lenguaje : Option String)
    (opciones_transcripcion : List (String × String)) : TOut :=
  if isFile fs ruta_mp3 = false then
    ⟨fs, ⟨[], []⟩,
      .error (.fileNotFoundError ("No se encontró el archivo MP3: " ++ pathStr ruta_mp3))⟩
  else
    let dst := destOf ruta_mp3 ruta_txt
    let fs1 := mkdirParents fs (parentP dst)
    match W.load_model modelo with
    | .error e => ⟨fs1, ⟨[modelo], []⟩, .error e⟩
    | .ok modelo_whisper =>
      match W.transcribe modelo_whisper ruta_mp3 lenguaje opciones_transcripcion with
      | .error e =>
          ⟨fs1, ⟨[modelo], [(modelo_whisper, ruta_mp3, lenguaje, opciones_transcripcion)]⟩,
            .error e⟩
      | .ok resultado =>
        let texto := pyStrip (resultado.text.getD "")
        if texto = "" then
          ⟨fs1, ⟨[modelo], [(modelo_whisper, ruta_mp3, lenguaje, opciones_transcripcion)]⟩,
            .error (.valueError "La transcripción resultó vacía.")⟩
        else
          match writeText fs1 dst texto with
          | none =>
              ⟨fs1, ⟨[modelo], [(modelo_whisper, ruta_mp3, lenguaje, opciones_transcripcion)]⟩,
                .error (.otherError "no se pudo escribir el archivo de salida")⟩
          | some fs2 =>
              ⟨fs2, ⟨[modelo], [(modelo_whisper, ruta_mp3, lenguaje, opciones_transcripcion)]⟩,
                .ok (resolvePath cwd dst)⟩

/-- Embedding of line 98 of the `__main__` block:
`lenguaje = None if args.lenguaje.lower() == "none" else args.lenguaje`. -/
def normalizarLenguaje (lenguaje : String) : Option String :=
  if lenguaje.toLower = "none" then none else some lenguaje

/-- Embedding of the command-line entry point (lines 96-105): normalise the
`--lenguaje` argument and invoke `transcribir_mp3_a_txt` with it; no extra
options are forwarded from the CLI. -/
def cliMain (W : Whisper) (cwd : List String) (fs : FS)
    (audio : PPath) (salida : Option PPath) (modelo : String) (lenguaje : String) : TOut :=
  transcribir_mp3_a_txt W cwd fs audio salida modelo (normalizarLenguaje lenguaje) []

/-- Concrete absolute source path used in witnesses. -/
def srcA : PPath := ⟨true, ["home", "user", "nota.mp3"]⟩

/-- Concrete filesystem holding `srcA` and its ancestor directories. -/
def fsA : FS :=
  ⟨[(srcA, "mp3bytes")], [⟨true, []⟩, ⟨true, ["home"]⟩, ⟨true, ["home", "user"]⟩]⟩

/-- Oracle whose transcription result is `"  hola  "` (trims to `"hola"`). -/
def wHola : Whisper := ⟨fun _ => .ok 7, fun _ _ _ _ => .ok ⟨some "  hola  "⟩⟩

/-- Oracle whose transcription result is whitespace only. -/
def wBlank : Whisper := ⟨fun _ => .ok 7, fun _ _ _ _ => .ok ⟨some " \n\t "⟩⟩

/-- Oracle whose result dict has no `"text"` entry at all. -/
def wNoText : Whisper := ⟨fun _ => .ok 7, fun _ _ _ _ => .ok ⟨none⟩⟩

/-- Oracle whose model loading fails. -/
def wLoadFail : Whisper :=
  ⟨fun _ => .error (.otherError "sin memoria"), fun _ _ _ _ => .ok ⟨some "x"⟩⟩

/-- Concrete relative source path used for the C4 counterexample. -/
def srcR : PPath := ⟨false, ["nota.mp3"]⟩

/-- Concrete filesystem holding the relative source `srcR`. -/
def fsR : FS := ⟨[(srcR, "mp3bytes")], [⟨false, []⟩]⟩

/-- Concrete explicit destination inside a directory absent from `fsA`. -/
def salidaOut : PPath := ⟨true, ["home", "user", "out", "result.txt"]⟩

/- ------------------------------------------------------------------ -/
/- Helper lemmas                                                      -/
/- ------------------------------------------------------------------ -/

theorem mem_ancestorComps_self (l : List String) : l ∈ ancestorComps l := by
  induction l with
  | nil => simp [ancestorComps]
  | cons a t ih =>
    have h1 : a :: t ∈ (ancestorComps t).map (fun l => a :: l) :=
      List.mem_map.mpr ⟨t, ih, rfl⟩
    show a :: t ∈ [] :: (ancestorComps t).map (fun l => a :: l)
    exact List.mem_cons_of_mem _ h1

theorem mem_ancestorsOf_self (p : PPath) : p ∈ ancestorsOf p := by
  have h := mem_ancestorComps_self p.comps
  exact List.mem_map.mpr ⟨p.comps, h, rfl⟩

theorem getFile_setFile (l : List (PPath × String)) (p : PPath) (s : String) :
    getFile (setFile l p s) p = some s := by
  induction l with
  | nil => simp [setFile, getFile]
  | cons a t ih =>
    rcases a with ⟨q, u⟩
    by_cases h : q = p
    · simp [setFile, getFile, h]
    · simp [setFile, getFile, h, ih]

/-- Run characterisation: missing source file. -/
theorem run_notFound (W : Whisper) (cwd : List String) (fs : FS) (ruta_mp3 : PPath)
    (ruta_txt : Option PPath) (modelo : String) (lenguaje : Option String)
    (opts : List (String × String)) (hfile : isFile fs ruta_mp3 = false) :
    transcribir_mp3_a_txt W cwd fs ruta_mp3 ruta_txt modelo lenguaje opts =
      ⟨fs, ⟨[], []⟩,
        .error (.fileNotFoundError ("No se encontró el archivo MP3: " ++ pathStr ruta_mp3))⟩ := by
  simp [transcribir_mp3_a_txt, hfile]

/-- Run characterisation: model loading fails. -/
theorem run_loadError (W : Whisper) (cwd : List String) (fs : FS) (ruta_mp3 : PPath)
    (ruta_txt : Option PPath) (modelo : String) (lenguaje : Option String)
    (opts : List (String × String)) (e : PyErr)
    (hfile : isFile fs ruta_mp3 = true) (hload : W.load_model modelo = .error e) :
    transcribir_mp3_a_txt W cwd fs ruta_mp3 ruta_txt modelo lenguaje opts =
      ⟨mkdirParents fs (parentP (destOf ruta_mp3 ruta_txt)), ⟨[modelo], []⟩, .error e⟩ := by
  simp [transcribir_mp3_a_txt, hfile, hload]

/-- Run characterisation: transcription call fails. -/
theorem run_transcribeError (W : Whisper) (cwd : List String) (fs : FS) (ruta_mp3 : PPath)
    (ruta_txt : Option PPath) (modelo : String) (lenguaje : Option String)
    (opts : List (String × String)) (h : Nat) (e : PyErr)
    (hfile : isFile fs ruta_mp3 = true) (hload : W.load_model modelo = .ok h)
    (htr : W.transcribe h ruta_mp3 lenguaje opts = .error e) :
    transcribir_mp3_a_txt W cwd fs ruta_mp3 ruta_txt modelo lenguaje opts =
      ⟨mkdirParents fs (parentP (destOf ruta_mp3 ruta_txt)),
        ⟨[modelo], [(h, ruta_mp3, lenguaje, opts)]⟩, .error e⟩ := by
  simp [transcribir_mp3_a_txt, hfile, hload, htr]

/-- Run characterisation: transcript empty after trimming (or text entry
absent). -/
theorem run_empty (W : Whisper) (cwd : List String) (fs : FS) (ruta_mp3 : PPath)
    (ruta_txt : Option PPath) (modelo : String) (lenguaje : Option String)
    (opts : List (String × String)) (h : Nat) (r : TResult)
    (hfile : isFile fs ruta_mp3 = true) (hload : W.load_model modelo = .ok h)
    (htr : W.transcribe h ruta_mp3 lenguaje opts = .ok r)
    (hws : pyStrip (r.text.getD "") = "") :
    transcribir_mp3_a_txt W cwd fs ruta_mp3 ruta_txt modelo lenguaje opts =
      ⟨mkdirParents fs (parentP (destOf ruta_mp3 ruta_txt)),
        ⟨[modelo], [(h, ruta_mp3, lenguaje, opts)]⟩,
        .error (.valueError "La transcripción resultó vacía.")⟩ := by
  simp [transcribir_mp3_a_txt, hfile, hload, htr, hws]

/-- Run characterisation: full success. -/
theorem run_success (W : Whisper) (cwd : List String) (fs : FS) (ruta_mp3 : PPath)
    (ruta_txt : Option PPath) (modelo : String) (lenguaje : Option String)
    (opts : List (String × String)) (h : Nat) (r : TResult)
    (hfile : isFile fs ruta_mp3 = true) (hload : W.load_model modelo = .ok h)
    (htr : W.transcribe h ruta_mp3 lenguaje opts = .ok r)
    (hne : ¬ pyStrip (r.text.getD "") = "") :
    transcribir_mp3_a_txt W cwd fs ruta_mp3 ruta_txt modelo lenguaje opts =
      ⟨⟨setFile fs.files (destOf ruta_mp3 ruta_txt) (pyStrip (r.text.getD "")),
          ancestorsOf (parentP (destOf ruta_mp3 ruta_txt)) ++ fs.dirs⟩,
        ⟨[modelo], [(h, ruta_mp3, lenguaje, opts)]⟩,
        .ok (resolvePath cwd (destOf ruta_mp3 ruta_txt))⟩ := by
  have hmem : parentP (destOf ruta_mp3 ruta_txt) ∈
      ancestorsOf (parentP (destOf ruta_mp3 ruta_txt)) ++ fs.dirs :=
    List.mem_append_left _ (mem_ancestorsOf_self _)
  simp [transcribir_mp3_a_txt, hfile, hload, htr, hne, mkdirParents, writeText, hmem]

theorem withSuffix_absolute (p : PPath) (suf : String) :
    (withSuffix p suf).absolute = p.absolute := by
  unfold withSuffix
  cases p.comps.getLast? <;> rfl

theorem resolvePath_of_absolute (cwd : List String) (p : PPath)
    (h : p.absolute = true) : resolvePath cwd p = p := by
  simp [resolvePath, h]

theorem resolvePath_absolute (cwd : List String) (p : PPath) :
    (resolvePath cwd p).absolute = true := by
  unfold resolvePath
  by_cases h : p.absolute <;> simp [h]

/- ------------------------------------------------------------------ -/
/- Claims                                                             -/
/- ------------------------------------------------------------------ -/

/-- Claim C1: when the source file exists and the external model returns a
result whose text entry is non-empty after trimming, the destination file's
full contents equal exactly the trimmed text (no header or structure) and
the function returns the destination path resolved to absolute form. -/
theorem C1_success_writes_trimmed_text (W : Whisper) (cwd : List String) (fs : FS)
    (ruta_mp3 : PPath) (ruta_txt : Option PPath) (modelo : String)
    (lenguaje : Option String) (opts : List (String × String)) (h : Nat) (t : String)
    (hfile : isFile fs ruta_mp3 = true)
    (hload : W.load_model modelo = .ok h)
    (htr : W.transcribe h ruta_mp3 lenguaje opts = .ok ⟨some t⟩)
    (hne : ¬ pyStrip t = "") :
    getFile (transcribir_mp3_a_txt W cwd fs ruta_mp3 ruta_txt modelo lenguaje opts).fs.files
        (destOf ruta_mp3 ruta_txt) = some (pyStrip t) ∧
      (transcribir_mp3_a_txt W cwd fs ruta_mp3 ruta_txt modelo lenguaje opts).result =
        .ok (resolvePath cwd (destOf ruta_mp3 ruta_txt)) ∧
      (resolvePath cwd (destOf ruta_mp3 ruta_txt)).absolute = true := by
  rw [run_success W cwd fs ruta_mp3 ruta_txt modelo lenguaje opts h ⟨some t⟩ hfile hload htr hne]
  exact ⟨getFile_setFile fs.files _ _, rfl, resolvePath_absolute cwd _⟩

theorem C1_witness :
    getFile (transcribir_mp3_a_txt wHola ["cwd"] fsA srcA none "base" (some "es") []).fs.files
        (destOf srcA none) = some (pyStrip "  hola  ") ∧
      (transcribir_mp3_a_txt wHola ["cwd"] fsA srcA none "base" (some "es") []).result =
        .ok (resolvePath ["cwd"] (destOf srcA none)) ∧
      (resolvePath ["cwd"] (destOf srcA none)).absolute = true :=
  C1_success_writes_trimmed_text wHola ["cwd"] fsA srcA none "base" (some "es") [] 7
    "  hola  " (by decide) rfl rfl (by decide)

/-- Claim C2: when the source path is not an existing regular file, the
invocation fails with the not-found error, no model is loaded or invoked
(the call log is empty), and the filesystem is completely unchanged. -/
theorem C2_missing_source (W : Whisper) (cwd : List String) (fs : FS) (ruta_mp3 : PPath)
    (ruta_txt : Option PPath) (modelo : String) (lenguaje : Option String)
    (opts : List (String × String)) (hfile : isFile fs ruta_mp3 = false) :
    (transcribir_mp3_a_txt W cwd fs ruta_mp3 ruta_txt modelo lenguaje opts).result =
        .error (.fileNotFoundError ("No se encontró el archivo MP3: " ++ pathStr ruta_mp3)) ∧
      (transcribir_mp3_a_txt W cwd fs ruta_mp3 ruta_txt modelo lenguaje opts).log =
        ⟨[], []⟩ ∧
      (transcribir_mp3_a_txt W cwd fs ruta_mp3 ruta_txt modelo lenguaje opts).fs = fs := by
  rw [run_notFound W cwd fs ruta_mp3 ruta_txt modelo lenguaje opts hfile]
  exact ⟨rfl, rfl, rfl⟩

theorem C2_witness :
    (transcribir_mp3_a_txt wHola ["cwd"] fsA ⟨true, ["home", "user", "otro.mp3"]⟩ none
          "base" (some "es") []).result =
        .error (.fileNotFoundError
          ("No se encontró el archivo MP3: " ++ pathStr ⟨true, ["home", "user", "otro.mp3"]⟩)) ∧
      (transcribir_mp3_a_txt wHola ["cwd"] fsA ⟨true, ["home", "user", "otro.mp3"]⟩ none
          "base" (some "es") []).log = ⟨[], []⟩ ∧
      (transcribir_mp3_a_txt wHola ["cwd"] fsA ⟨true, ["home", "user", "otro.mp3"]⟩ none
          "base" (some "es") []).fs = fsA :=
  C2_missing_source wHola ["cwd"] fsA ⟨true, ["home", "user", "otro.mp3"]⟩ none "base"
    (some "es") [] (by decide)

/-- Claim C3: when the model's text output trims to the empty string, the
invocation fails with the no-usable-text error and no file is written. -/
theorem C3_whitespace_output (W : Whisper) (cwd : List String) (fs : FS) (ruta_mp3 : PPath)
    (ruta_txt : Option PPath) (modelo : String) (lenguaje : Option String)
    (opts : List (String × String)) (h : Nat) (t : String)
    (hfile : isFile fs ruta_mp3 = true)
    (hload : W.load_model modelo = .ok h)
    (htr : W.transcribe h ruta_mp3 lenguaje opts = .ok ⟨some t⟩)
    (hws : pyStrip t = "") :
    (transcribir_mp3_a_txt W cwd fs ruta_mp3 ruta_txt modelo lenguaje opts).result =
        .error (.valueError "La transcripción resultó vacía.") ∧
      (transcribir_mp3_a_txt W cwd fs ruta_mp3 ruta_txt modelo lenguaje opts).fs.files =
        fs.files := by
  rw [run_empty W cwd fs ruta_mp3 ruta_txt modelo lenguaje opts h ⟨some t⟩ hfile hload htr hws]
  exact ⟨rfl, rfl⟩

theorem C3_witness :
    (transcribir_mp3_a_txt wBlank ["cwd"] fsA srcA none "base" (some "es") []).result =
        .error (.valueError "La transcripción resultó vacía.") ∧
      (transcribir_mp3_a_txt wBlank ["cwd"] fsA srcA none "base" (some "es") []).fs.files =
        fsA.files :=
  C3_whitespace_output wBlank ["cwd"] fsA srcA none "base" (some "es") [] 7 " \n\t "
    (by decide) rfl rfl (by decide)

/-- Claim C4 counterexample: with a relative source path `nota.mp3`, a
working directory `home`, and the destination omitted, the invocation
succeeds but returns the absolute path `/home/nota.txt`, which is not the
source path with only its extension replaced (`nota.txt`, relative). -/
theorem C4_counterexample :
    (transcribir_mp3_a_txt wHola ["home"] fsR srcR none "base" (some "es") []).result =
        .ok (⟨true, ["home", "nota.txt"]⟩ : PPath) ∧
      ¬ ((⟨true, ["home", "nota.txt"]⟩ : PPath) = withSuffix srcR ".txt") := by
  exact ⟨by decide, by decide⟩

/-- Claim C4 (amended): when the destination argument is omitted, the
destination file is the source path with only its extension replaced by
`.txt`, and the returned path is the resolved absolute form of that
destination; it equals the destination itself (source with extension
replaced) whenever the source path is absolute. -/
theorem C4_default_destination (W : Whisper) (cwd : List String) (fs : FS)
    (ruta_mp3 : PPath) (modelo : String) (lenguaje : Option String)
    (opts : List (String × String)) (h : Nat) (t : String)
    (hfile : isFile fs ruta_mp3 = true)
    (hload : W.load_model modelo = .ok h)
    (htr : W.transcribe h ruta_mp3 lenguaje opts = .ok ⟨some t⟩)
    (hne : ¬ pyStrip t = "") :
    (transcribir_mp3_a_txt W cwd fs ruta_mp3 none modelo lenguaje opts).result =
        .ok (resolvePath cwd (withSuffix ruta_mp3 ".txt")) ∧
      getFile (transcribir_mp3_a_txt W cwd fs ruta_mp3 none modelo lenguaje opts).fs.files
        (withSuffix ruta_mp3 ".txt") = some (pyStrip t) ∧
      (ruta_mp3.absolute = true →
        (transcribir_mp3_a_txt W cwd fs ruta_mp3 none modelo lenguaje opts).result =
          .ok (withSuffix ruta_mp3 ".txt")) := by
  rw [run_success W cwd fs ruta_mp3 none modelo lenguaje opts h ⟨some t⟩ hfile hload htr hne]
  refine ⟨rfl, getFile_setFile fs.files _ _, fun habs => ?_⟩
  have hres : resolvePath cwd (withSuffix ruta_mp3 ".txt") = withSuffix ruta_mp3 ".txt" :=
    resolvePath_of_absolute cwd _ (by rw [withSuffix_absolute]; exact habs)
  simp [destOf, hres]

theorem C4_witness :
    (transcribir_mp3_a_txt wHola ["cwd"] fsA srcA none "base" (some "es") []).result =
        .ok (resolvePath ["cwd"] (withSuffix srcA ".txt")) ∧
      getFile (transcribir_mp3_a_txt wHola ["cwd"] fsA srcA none "base" (some "es") []).fs.files
        (withSuffix srcA ".txt") = some (pyStrip "  hola  ") ∧
      (srcA.absolute = true →
        (transcribir_mp3_a_txt wHola ["cwd"] fsA srcA none "base" (some "es") []).result =
          .ok (withSuffix srcA ".txt")) :=
  C4_default_destination wHola ["cwd"] fsA srcA "base" (some "es") [] 7 "  hola  "
    (by decide) rfl rfl (by decide)

/-- Claim C5: every successful invocation returns exactly the resolved form
of the destination path (explicit or derived), which is absolute. -/
theorem C5_returns_resolved (W : Whisper) (cwd : List String) (fs : FS) (ruta_mp3 : PPath)
    (ruta_txt : Option PPath) (modelo : String) (lenguaje : Option String)
    (opts : List (String × String)) (h : Nat) (r : TResult)
    (hfile : isFile fs ruta_mp3 = true)
    (hload : W.load_model modelo = .ok h)
    (htr : W.transcribe h ruta_mp3 lenguaje opts = .ok r)
    (hne : ¬ pyStrip (r.text.getD "") = "") :
    (transcribir_mp3_a_txt W cwd fs ruta_mp3 ruta_txt modelo lenguaje opts).result =
        .ok (resolvePath cwd (destOf ruta_mp3 ruta_txt)) ∧
      (resolvePath cwd (destOf ruta_mp3 ruta_txt)).absolute = true := by
  rw [run_success W cwd fs ruta_mp3 ruta_txt modelo lenguaje opts h r hfile hload htr hne]
  exact ⟨rfl, resolvePath_absolute cwd _⟩

theorem C5_witness :
    (transcribir_mp3_a_txt wHola ["cwd"] fsR srcR (some salidaOut) "base" (some "es") []).result =
        .ok (resolvePath ["cwd"] (destOf srcR (some salidaOut))) ∧
      (resolvePath ["cwd"] (destOf srcR (some salidaOut))).absolute = true :=
  C5_returns_resolved wHola ["cwd"] fsR srcR (some salidaOut) "base" (some "es") [] 7
    ⟨some "  hola  "⟩ (by decide) rfl rfl (by decide)

/-- Claim C6: when the destination's parent directory does not exist, a
successful invocation creates it and all missing ancestors and the write
succeeds (the destination file holds the trimmed transcript). -/
theorem C6_creates_parent_dirs (W : Whisper) (cwd : List String) (fs : FS) (ruta_mp3 : PPath)
    (ruta_txt : Option PPath) (modelo : String) (lenguaje : Option String)
    (opts : List (String × String)) (h : Nat) (r : TResult)
    (hfile : isFile fs ruta_mp3 = true)
    (hload : W.load_model modelo = .ok h)
    (htr : W.transcribe h ruta_mp3 lenguaje opts = .ok r)
    (hne : ¬ pyStrip (r.text.getD "") = "")
    (_hpar : ¬ parentP (destOf ruta_mp3 ruta_txt) ∈ fs.dirs) :
    parentP (destOf ruta_mp3 ruta_txt) ∈
        (transcribir_mp3_a_txt W cwd fs ruta_mp3 ruta_txt modelo lenguaje opts).fs.dirs ∧
      (∀ d ∈ ancestorsOf (parentP (destOf ruta_mp3 ruta_txt)),
        d ∈ (transcribir_mp3_a_txt W cwd fs ruta_mp3 ruta_txt modelo lenguaje opts).fs.dirs) ∧
      getFile (transcribir_mp3_a_txt W cwd fs ruta_mp3 ruta_txt modelo lenguaje opts).fs.files
        (destOf ruta_mp3 ruta_txt) = some (pyStrip (r.text.getD "")) := by
  rw [run_success W cwd fs ruta_mp3 ruta_txt modelo lenguaje opts h r hfile hload htr hne]
  exact ⟨List.mem_append_left _ (mem_ancestorsOf_self _),
    fun d hd => List.mem_append_left _ hd, getFile_setFile fs.files _ _⟩

theorem C6_witness :
    parentP (destOf srcA (some salidaOut)) ∈
        (transcribir_mp3_a_txt wHola ["cwd"] fsA srcA (some salidaOut) "base"
          (some "es") []).fs.dirs ∧
      (∀ d ∈ ancestorsOf (parentP (destOf srcA (some salidaOut))),
        d ∈ (transcribir_mp3_a_txt wHola ["cwd"] fsA srcA (some salidaOut) "base"
          (some "es") []).fs.dirs) ∧
      getFile (transcribir_mp3_a_txt wHola ["cwd"] fsA srcA (some salidaOut) "base"
          (some "es") []).fs.files (destOf srcA (some salidaOut)) =
        some (pyStrip ((⟨some "  hola  "⟩ : TResult).text.getD "")) :=
  C6_creates_parent_dirs wHola ["cwd"] fsA srcA (some salidaOut) "base" (some "es") [] 7
    ⟨some "  hola  "⟩ (by decide) rfl rfl (by decide) (by decide)

/-- Claim C7: the command-line entry point invokes the model with no
language hint exactly when the `--lenguaje` argument lowercases to
`"none"`, and otherwise passes the argument through unchanged: whenever the
execution reaches the transcription call, the logged call carries
`none` in the first case and `some lenguaje` in the second. -/
theorem C7_cli_lenguaje (W : Whisper) (cwd : List String) (fs : FS) (audio : PPath)
    (salida : Option PPath) (modelo : String) (lenguaje : String) (h : Nat)
    (hfile : isFile fs audio = true) (hload : W.load_model modelo = .ok h) :
    (cliMain W cwd fs audio salida modelo lenguaje).log.calls =
      [(h, audio, if lenguaje.toLower = "none" then none else some lenguaje, [])] := by
  unfold cliMain normalizarLenguaje
  cases htr : W.transcribe h audio (if lenguaje.toLower = "none" then none else some lenguaje) []
    with
  | error e =>
      rw [run_transcribeError W cwd fs audio salida modelo _ [] h e hfile hload htr]
  | ok r =>
      by_cases hws : pyStrip (r.text.getD "") = ""
      · rw [run_empty W cwd fs audio salida modelo _ [] h r hfile hload htr hws]
      · rw [run_success W cwd fs audio salida modelo _ [] h r hfile hload htr hws]

theorem C7_witness :
    (cliMain wHola ["cwd"] fsA srcA none "base" "NoNe").log.calls =
      [(7, srcA, if "NoNe".toLower = "none" then none else some "NoNe", [])] :=
  C7_cli_lenguaje wHola ["cwd"] fsA srcA none "base" "NoNe" 7 (by decide) rfl

/-- Claim C8: a failure raised by model loading or by the transcription
call is propagated unchanged as the invocation's result, and no file is
written. -/
theorem C8_propagates_model_errors (W : Whisper) (cwd : List String) (fs : FS)
    (ruta_mp3 : PPath) (ruta_txt : Option PPath) (modelo : String)
    (lenguaje : Option String) (opts : List (String × String)) (e : PyErr)
    (hfile : isFile fs ruta_mp3 = true)
    (herr : W.load_model modelo = .error e ∨
      ∃ h, W.load_model modelo = .ok h ∧
        W.transcribe h ruta_mp3 lenguaje opts = .error e) :
    (transcribir_mp3_a_txt W cwd fs ruta_mp3 ruta_txt modelo lenguaje opts).result =
        .error e ∧
      (transcribir_mp3_a_txt W cwd fs ruta_mp3 ruta_txt modelo lenguaje opts).fs.files =
        fs.files := by
  rcases herr with hload | ⟨h, hload, htr⟩
  · rw [run_loadError W cwd fs ruta_mp3 ruta_txt modelo lenguaje opts e hfile hload]
    exact ⟨rfl, rfl⟩
  · rw [run_transcribeError W cwd fs ruta_mp3 ruta_txt modelo lenguaje opts h e hfile hload htr]
    exact ⟨rfl, rfl⟩

theorem C8_witness :
    (transcribir_mp3_a_txt wLoadFail ["cwd"] fsA srcA none "base" (some "es") []).result =
        .error (.otherError "sin memoria") ∧
      (transcribir_mp3_a_txt wLoadFail ["cwd"] fsA srcA none "base" (some "es") []).fs.files =
        fsA.files :=
  C8_propagates_model_errors wLoadFail ["cwd"] fsA srcA none "base" (some "es") []
    (.otherError "sin memoria") (by decide) (Or.inl rfl)

/-- Claim C9: when the model's result structure has no text entry at all,
the invocation fails with the same no-usable-text `ValueError` as for
whitespace-only output (the lookup defaults to the empty string; there is
no missing-key failure), and no file is written. -/
theorem C9_missing_text_field (W : Whisper) (cwd : List String) (fs : FS) (ruta_mp3 : PPath)
    (ruta_txt : Option PPath) (modelo : String) (lenguaje : Option String)
    (opts : List (String × String)) (h : Nat)
    (hfile : isFile fs ruta_mp3 = true)
    (hload : W.load_model modelo = .ok h)
    (htr : W.transcribe h ruta_mp3 lenguaje opts = .ok ⟨none⟩) :
    (transcribir_mp3_a_txt W cwd fs ruta_mp3 ruta_txt modelo lenguaje opts).result =
        .error (.valueError "La transcripción resultó vacía.") ∧
      (transcribir_mp3_a_txt W cwd fs ruta_mp3 ruta_txt modelo lenguaje opts).fs.files =
        fs.files := by
  rw [run_empty W cwd fs ruta_mp3 ruta_txt modelo lenguaje opts h ⟨none⟩ hfile hload htr
    (by decide)]
  exact ⟨rfl, rfl⟩

theorem C9_witness :
    (transcribir_mp3_a_txt wNoText ["cwd"] fsA srcA none "base" (some "es") []).result =
        .error (.valueError "La transcripción resultó vacía.") ∧
      (transcribir_mp3_a_txt wNoText ["cwd"] fsA srcA none "base" (some "es") []).fs.files =
        fsA.files :=
  C9_missing_text_field wNoText ["cwd"] fsA srcA none "base" (some "es") [] 7
    (by decide) rfl rfl

/-- Claim C10: whenever the source file exists, the destination's parent
directory and all its ancestors exist after the invocation whatever the
model does (so a later model error or empty transcript leaves the created
directories behind with no file written), and when the destination file
already exists a successful invocation silently replaces its contents with
the new trimmed transcript. -/
theorem C10_frame_effects (W : Whisper) (cwd : List String) (fs : FS) (ruta_mp3 : PPath)
    (ruta_txt : Option PPath) (modelo : String) (lenguaje : Option String)
    (opts : List (String × String))
    (hfile : isFile fs ruta_mp3 = true) :
    (∀ d ∈ ancestorsOf (parentP (destOf ruta_mp3 ruta_txt)),
        d ∈ (transcribir_mp3_a_txt W cwd fs ruta_mp3 ruta_txt modelo lenguaje opts).fs.dirs) ∧
      (∀ e, (W.load_model modelo = .error e ∨
          ∃ h, W.load_model modelo = .ok h ∧
            W.transcribe h ruta_mp3 lenguaje opts = .error e) →
        (transcribir_mp3_a_txt W cwd fs ruta_mp3 ruta_txt modelo lenguaje opts).fs.files =
          fs.files) ∧
      (∀ h r, W.load_model modelo = .ok h →
        W.transcribe h ruta_mp3 lenguaje opts = .ok r →
        pyStrip (r.text.getD "") = "" →
        (transcribir_mp3_a_txt W cwd fs ruta_mp3 ruta_txt modelo lenguaje opts).fs.files =
          fs.files) ∧
      (∀ s0 h r, getFile fs.files (destOf ruta_mp3 ruta_txt) = some s0 →
        W.load_model modelo = .ok h →
        W.transcribe h ruta_mp3 lenguaje opts = .ok r →
        ¬ pyStrip (r.text.getD "") = "" →
        getFile (transcribir_mp3_a_txt W cwd fs ruta_mp3 ruta_txt modelo lenguaje
            opts).fs.files (destOf ruta_mp3 ruta_txt) = some (pyStrip (r.text.getD ""))) := by
  refine ⟨?_, ?_, ?_, ?_⟩
  · intro d hd
    cases hload : W.load_model modelo with
    | error e =>
        rw [run_loadError W cwd fs ruta_mp3 ruta_txt modelo lenguaje opts e hfile hload]
        exact List.mem_append_left _ hd
    | ok h =>
        cases htr : W.transcribe h ruta_mp3 lenguaje opts with
        | error e =>
            rw [run_transcribeError W cwd fs ruta_mp3 ruta_txt modelo lenguaje opts h e hfile
              hload htr]
            exact List.mem_append_left _ hd
        | ok r =>
            by_cases hws : pyStrip (r.text.getD "") = ""
            · rw [run_empty W cwd fs ruta_mp3 ruta_txt modelo lenguaje opts h r hfile hload
                htr hws]
              exact List.mem_append_left _ hd
            · rw [run_success W cwd fs ruta_mp3 ruta_txt modelo lenguaje opts h r hfile hload
                htr hws]
              exact List.mem_append_left _ hd
  · intro e herr
    rcases herr with hload | ⟨h, hload, htr⟩
    · rw [run_loadError W cwd fs ruta_mp3 ruta_txt modelo lenguaje opts e hfile hload]
      rfl
    · rw [run_transcribeError W cwd fs ruta_mp3 ruta_txt modelo lenguaje opts h e hfile hload
        htr]
      rfl
  · intro h r hload htr hws
    rw [run_empty W cwd fs ruta_mp3 ruta_txt modelo lenguaje opts h r hfile hload htr hws]
    rfl
  · intro s0 h r hprev hload htr hne
    rw [run_success W cwd fs ruta_mp3 ruta_txt modelo lenguaje opts h r hfile hload htr hne]
    exact getFile_setFile fs.files _ _

theorem C10_witness :
    isFile fsA srcA = true ∧
      ((∀ d ∈ ancestorsOf (parentP (destOf srcA (some salidaOut))),
        d ∈ (transcribir_mp3_a_txt wLoadFail ["cwd"] fsA srcA (some salidaOut) "base"
          (some "es") []).fs.dirs) ∧
      (∀ e, (wLoadFail.load_model "base" = .error e ∨
          ∃ h, wLoadFail.load_model "base" = .ok h ∧
            wLoadFail.transcribe h srcA (some "es") [] = .error e) →
        (transcribir_mp3_a_txt wLoadFail ["cwd"] fsA srcA (some salidaOut) "base"
          (some "es") []).fs.files = fsA.files) ∧
      (∀ h r, wLoadFail.load_model "base" = .ok h →
        wLoadFail.transcribe h srcA (some "es") [] = .ok r →
        pyStrip (r.text.getD "") = "" →
        (transcribir_mp3_a_txt wLoadFail ["cwd"] fsA srcA (some salidaOut) "base"
          (some "es") []).fs.files = fsA.files) ∧
      (∀ s0 h r, getFile fsA.files (destOf srcA (some salidaOut)) = some s0 →
        wLoadFail.load_model "base" = .ok h →
        wLoadFail.transcribe h srcA (some "es") [] = .ok r →
        ¬ pyStrip (r.text.getD "") = "" →
        getFile (transcribir_mp3_a_txt wLoadFail ["cwd"] fsA srcA (some salidaOut) "base"
            (some "es") []).fs.files (destOf srcA (some salidaOut)) =
          some (pyStrip (r.text.getD "")))) :=
  ⟨by decide, C10_frame_effects wLoadFail ["cwd"] fsA srcA (some salidaOut) "base"
    (some "es") [] (by decide)⟩

end Transcripcion
